import Mathlib

/-!
Shallow embedding of the GeoEstate map client controller
(src/static/js/main.js) and proofs about its rendering, routing,
geocoding and estimation behaviour.

The browser environment (DOM elements, the Leaflet mapping widget, fetch)
is modelled explicitly: page-level mutable state (`map`, `propertyMarkers`,
`currentRouteLayer`, ...) together with the visible artefacts the script
produces (layers on the map, the open popup, alert messages, the result
counter) form an `AppState`; each network-backed operation takes the
server's response as an explicit argument, since the script is
single-threaded and every callback runs to completion.  Layers added to
the Leaflet map are identified by a fresh numeric id (Leaflet's internal
`_leaflet_id`); `map.removeLayer` removes the layer with the given id and
is logged in `removeLayerCalls`.
-/

namespace GeoEstate

/-- A latitude/longitude pair. JS numbers are modelled as rationals. -/
structure Point where
  lat : ℚ
  lng : ℚ
deriving DecidableEq, Repr

/-- The kinds of overlay the script ever adds to the Leaflet map. -/
inductive LayerKind where
  | propertyMarker
  | geocodeMarker
  | userMarker
  | routeLine
deriving DecidableEq, Repr

/-- An overlay currently on the map: its Leaflet id and what created it. -/
structure Layer where
  id : Nat
  kind : LayerKind
deriving DecidableEq, Repr

/-- A property listing as served by the backend (`GET /api/properties`).
Prices are integral amounts in currency minor-unit-free form. -/
structure Property where
  lat : ℚ
  lng : ℚ
  price : Nat
  bedrooms : Nat
  bathrooms : Nat
  area : Nat
  address : String
  image : String
  type : String
deriving DecidableEq, Repr

/-- One entry of the `propertyMarkers` array: the marker's Leaflet id,
its position and the `L.divIcon` data (side of the square `iconSize`
and its `html` price label). -/
structure PropMarker where
  layerId : Nat
  pos : Point
  iconSize : Nat
  iconHtml : String
deriving DecidableEq, Repr

/-- The polyline stored in `currentRouteLayer`: Leaflet id plus the
point sequence it was built from. -/
structure RouteLayer where
  id : Nat
  points : List Point
deriving DecidableEq, Repr

/-- The popup currently open on the map, if any.  `text` is a marker
popup opened with `openPopup` (geocode result); `routeInfo` is the route
summary popup, whose content string
`Distance: {d} km, Duration: {m} minutes` is represented by its numeric
payload (distance and the already-rounded minute count). -/
inductive Popup where
  | text (anchor : Point) (content : String)
  | routeInfo (anchor : Point) (distanceKm : ℚ) (durationMinutes : ℤ)
deriving DecidableEq, Repr

/-- The map viewport: either untouched, positioned by `setView`, or
fitted by `fitBounds` to a point list with pixel padding. -/
inductive MapView where
  | initial
  | view (center : Point) (zoom : Nat)
  | fitted (bounds : List Point) (padding : Nat × Nat)
deriving DecidableEq, Repr

/-- A sidebar card produced by `addPropertyToList` (the fields its HTML
template interpolates). -/
structure PropCard where
  price : Nat
  bedrooms : Nat
  bathrooms : Nat
  address : String
  type : String
deriving DecidableEq, Repr

/-- The whole client-visible state: the script's module-level variables
plus the observable artefacts in the page. -/
structure AppState where
  /-- Next fresh Leaflet layer id. -/
  nextId : Nat
  /-- Overlays currently on the map. -/
  mapLayers : List Layer
  /-- The `propertyMarkers` array. -/
  propertyMarkers : List PropMarker
  /-- The `currentRouteLayer` variable (`null` = `none`). -/
  currentRouteLayer : Option RouteLayer
  /-- The `userLocationMarker` variable (`null` = `none`). -/
  userLocationMarker : Option Nat
  /-- The sidebar `propertyList` contents. -/
  propertyList : List PropCard
  /-- The `resultCount` element's text (set to a number by the script). -/
  resultCount : Nat
  /-- The popup currently open, if any. -/
  openPopup : Option Popup
  /-- The viewport state. -/
  mapView : MapView
  /-- Messages shown with `alert`, oldest first. -/
  alerts : List String
  /-- Number of `console.error` calls. -/
  consoleErrors : Nat
  /-- Log of every `map.removeLayer` invocation (by layer id). -/
  removeLayerCalls : List Nat
deriving DecidableEq, Repr

/-- A blank page state before any script activity. -/
def initialState : AppState :=
  { nextId := 0
    mapLayers := []
    propertyMarkers := []
    currentRouteLayer := none
    userLocationMarker := none
    propertyList := []
    resultCount := 0
    openPopup := none
    mapView := MapView.initial
    alerts := []
    consoleErrors := 0
    removeLayerCalls := [] }

/-! ### JS primitives used by the script -/

/-- Digit-grouping helper: working over a digit list written least
significant first, insert a comma after every complete group of three
digits that has more digits beyond it. -/
def commaRev : List Char → List Char
  | a :: b :: c :: d :: rest => a :: b :: c :: ',' :: commaRev (d :: rest)
  | l => l

/-- JS `Number.prototype.toLocaleString` on a non-negative integer in the
default locale: decimal digits grouped in threes by commas. -/
def toLocaleString (n : Nat) : String :=
  String.mk (commaRev (Nat.repr n).toList.reverse).reverse

/-- JS `Math.round`: round half away from zero upward (floor of x + 1/2). -/
def jsRound (q : ℚ) : ℤ :=
  Int.floor (q + 1 / 2)

/-- JS `a || b` on a possibly-missing string `a`: a missing field and the
empty string are falsy, any other string is returned as is. -/
def jsOrString (a : Option String) (b : String) : String :=
  match a with
  | some x => if x = "" then b else x
  | none => b

/-- Numeric value of a decimal digit character, `none` otherwise. -/
def digitVal (c : Char) : Option Nat :=
  if c.isDigit then some (c.toNat - 48) else none

/-- Split off the longest prefix of decimal digits. -/
def takeDigits : List Char → List Nat × List Char
  | [] => ([], [])
  | c :: rest =>
    match digitVal c with
    | some d =>
      let p := takeDigits rest
      (d :: p.1, p.2)
    | none => ([], c :: rest)

/-- Value of a digit list read most significant first. -/
def digitsToNat (ds : List Nat) : Nat :=
  ds.foldl (fun acc d => acc * 10 + d) 0

/-- Split an optional leading sign; `true` means negative. -/
def splitSign : List Char → Bool × List Char
  | '-' :: rest => (true, rest)
  | '+' :: rest => (false, rest)
  | cs => (false, cs)

/-- JS `parseInt(s)` for ordinary base-10 form-field input: skip leading
whitespace and an optional sign, read the longest digit prefix; no digits
means `NaN`, modelled as `none`.  (Hex prefixes and exponent forms do not
arise from the numeric form fields modelled here.) -/
def jsParseInt (s : String) : Option ℤ :=
  let cs := s.toList.dropWhile Char.isWhitespace
  let p := splitSign cs
  let d := takeDigits p.2
  if d.1.isEmpty then none
  else some (if p.1 then -(digitsToNat d.1 : ℤ) else (digitsToNat d.1 : ℤ))

/-- JS `parseFloat(s)` for ordinary decimal form-field input: skip leading
whitespace and an optional sign, read digits, an optional point and more
digits; no digits at all means `NaN`, modelled as `none`. -/
def jsParseFloat (s : String) : Option ℚ :=
  let cs := s.toList.dropWhile Char.isWhitespace
  let p := splitSign cs
  let ip := takeDigits p.2
  let withSign : ℚ → ℚ := fun v => if p.1 then -v else v
  match ip.2 with
  | '.' :: rest2 =>
    let fp := takeDigits rest2
    if ip.1.isEmpty ∧ fp.1.isEmpty then none
    else
      some (withSign ((digitsToNat ip.1 : ℚ) +
        (digitsToNat fp.1 : ℚ) / (10 : ℚ) ^ fp.1.length))
  | _ =>
    if ip.1.isEmpty then none
    else some (withSign (digitsToNat ip.1 : ℚ))

/-! ### Leaflet map operations -/

/-- `map.removeLayer(layer)`: drops the layer with that id from the map
and is recorded in the call log. -/
def removeLayer (lid : Nat) (s : AppState) : AppState :=
  { s with
    mapLayers := s.mapLayers.filter (fun l => l.id != lid)
    removeLayerCalls := s.removeLayerCalls ++ [lid] }

/-! ### Listing renderer (main.js 96-210) -/

/-- The marker data `addPropertyToMap` builds for one property: the
`L.divIcon` side is 50 when the price exceeds 200000, else 40, and the
icon HTML is the `N$`-prefixed localized price. -/
def mkMarker (p : Property) (lid : Nat) : PropMarker :=
  { layerId := lid
    pos := { lat := p.lat, lng := p.lng }
    iconSize := if p.price > 200000 then 50 else 40
    iconHtml := "N$" ++ toLocaleString p.price }

/-- `addPropertyToMap(property)` (main.js 127-174): creates the price
marker, adds it to the map and pushes it onto `propertyMarkers`.  The
popup HTML bound to the marker and the route-button handler registered on
`popupopen` cause no immediate state change and are not modelled. -/
def addPropertyToMap (p : Property) (s : AppState) : AppState :=
  { s with
    nextId := s.nextId + 1
    mapLayers := s.mapLayers ++ [{ id := s.nextId, kind := LayerKind.propertyMarker }]
    propertyMarkers := s.propertyMarkers ++ [mkMarker p s.nextId] }

/-- The sidebar card data interpolated by `addPropertyToList`. -/
def propCard (p : Property) : PropCard :=
  { price := p.price
    bedrooms := p.bedrooms
    bathrooms := p.bathrooms
    address := p.address
    type := p.type }

/-- `addPropertyToList(property)` (main.js 177-202): appends a card to the
sidebar list.  The card's click handler (setView + openPopup) fires only
on later user interaction and is not modelled. -/
def addPropertyToList (p : Property) (s : AppState) : AppState :=
  { s with propertyList := s.propertyList ++ [propCard p] }

/-- `clearPropertyMarkers()` (main.js 205-210): removes each tracked
marker's layer from the map, then resets `propertyMarkers` to `[]`. -/
def clearPropertyMarkers (s : AppState) : AppState :=
  let s1 := s.propertyMarkers.foldl (fun st m => removeLayer m.layerId st) s
  { s1 with propertyMarkers := [] }

/-- `displayProperties(properties)` (main.js 108-124): clears the
existing markers and the sidebar list, renders every property on the map
and in the list, then sets the result counter to the set's size. -/
def displayProperties (props : List Property) (s : AppState) : AppState :=
  let s1 := clearPropertyMarkers s
  let s2 := { s1 with propertyList := [] }
  let s3 := props.foldl (fun st p => addPropertyToList p (addPropertyToMap p st)) s2
  { s3 with resultCount := props.length }

/-! ### Location search (main.js 313-340) -/

/-- Outcome of `fetch('/api/geocode?...')` as seen by the callbacks:
a rejected fetch / JSON error, a `success:false` body whose `error`
field may be absent, or a `success:true` body. -/
inductive GeocodeResponse where
  | fetchError
  | failure (error : Option String)
  | success (lat : ℚ) (lng : ℚ) (formattedAddress : String)
deriving DecidableEq, Repr

/-- `searchLocation(locationQuery)` (main.js 313-340): an empty query is
a no-op (no request is issued); otherwise, on `success` the map is
re-centered at zoom 14 and a plain marker with the formatted address as
its popup is added to the map (and its popup opened); on `success:false`
the alert shows `data.error || 'Location not found'`; a rejected fetch is
only logged.  `query` is the effective query (the argument, or the
`locationSearch` field value when no argument was given). -/
def searchLocation (query : String) (resp : GeocodeResponse) (s : AppState) : AppState :=
  if query = "" then s
  else
    match resp with
    | GeocodeResponse.fetchError => { s with consoleErrors := s.consoleErrors + 1 }
    | GeocodeResponse.failure err =>
      { s with alerts := s.alerts ++ [jsOrString err "Location not found"] }
    | GeocodeResponse.success lat lng addr =>
      { s with
        mapView := MapView.view { lat := lat, lng := lng } 14
        nextId := s.nextId + 1
        mapLayers := s.mapLayers ++ [{ id := s.nextId, kind := LayerKind.geocodeMarker }]
        openPopup := some (Popup.text { lat := lat, lng := lng } addr) }

/-! ### Route display (main.js 343-380) -/

/-- A `success:true` body of `GET /api/route`: `start`, `waypoints`,
`end` (named `endPt`, since `end` is reserved), `distance` (km) and
`duration` (minutes). -/
structure RouteData where
  start : Point
  waypoints : List Point
  endPt : Point
  distance : ℚ
  duration : ℚ
deriving DecidableEq, Repr

/-- Outcome of `fetch('/api/route?...')`: rejected fetch / JSON error,
a `success:false` body (silently ignored by the code), or `success`. -/
inductive RouteResponse where
  | fetchError
  | failure
  | success (data : RouteData)
deriving DecidableEq, Repr

/-- Whether a route response is one of the two non-success outcomes. -/
def RouteResponse.isFail : RouteResponse → Bool
  | RouteResponse.success _ => false
  | _ => true

/-- The part of `showRoute` that runs before the fetch is issued
(main.js 344-347): if `currentRouteLayer` is set, remove that layer from
the map.  `currentRouteLayer` itself is NOT reset here. -/
def showRouteBeforeFetch (s : AppState) : AppState :=
  match s.currentRouteLayer with
  | some rl => removeLayer rl.id s
  | none => s

/-- The response callbacks of `showRoute` (main.js 351-379): a rejected
fetch is logged; a `success:false` body does nothing; on success the
point array `[start, ...waypoints, end]` becomes a polyline added to the
map and stored in `currentRouteLayer`, the viewport is fitted to it with
padding [50, 50], and the summary popup (distance, `Math.round`ed
duration) opens at `points[Math.floor(points.length / 2)]` (the index is
always in bounds since the array holds at least start and end). -/
def showRouteOnResponse (resp : RouteResponse) (s : AppState) : AppState :=
  match resp with
  | RouteResponse.fetchError => { s with consoleErrors := s.consoleErrors + 1 }
  | RouteResponse.failure => s
  | RouteResponse.success rd =>
    let points := rd.start :: (rd.waypoints ++ [rd.endPt])
    { s with
      nextId := s.nextId + 1
      mapLayers := s.mapLayers ++ [{ id := s.nextId, kind := LayerKind.routeLine }]
      currentRouteLayer := some { id := s.nextId, points := points }
      mapView := MapView.fitted points (50, 50)
      openPopup := some (Popup.routeInfo (points.getD (points.length / 2) rd.start)
        rd.distance (jsRound rd.duration)) }

/-- `showRoute(startLat, startLng, endLat, endLng)` (main.js 343-380):
the pre-fetch removal followed by the handling of the response.  The four
coordinate arguments only parameterize the request URL and do not affect
the state transition, so they are omitted. -/
def showRoute (resp : RouteResponse) (s : AppState) : AppState :=
  showRouteOnResponse resp (showRouteBeforeFetch s)

/-! ### Price estimation (main.js 383-442) -/

/-- The raw values of the estimation form controls at click time. -/
structure EstimateForm where
  propertyType : String
  location : String
  bedrooms : String
  bathrooms : String
  area : String
  age : String
  condition : String
  garage : Bool
  pool : Bool
  garden : Bool
  security : Bool
  aircon : Bool
  furnished : Bool
deriving DecidableEq, Repr

/-- The `estimateData` object posted to `/api/estimate-price`.  Numeric
fields hold the `parseInt` / `parseFloat` results; `none` models `NaN`
(JSON serialization of the object is outside this model). -/
structure EstimateRequest where
  property_type : String
  location : String
  bedrooms : Option ℤ
  bathrooms : Option ℤ
  area : Option ℚ
  age : Option ℤ
  condition : String
  garage : Bool
  pool : Bool
  garden : Bool
  security : Bool
  aircon : Bool
  furnished : Bool
deriving DecidableEq, Repr

/-- What `calculatePriceEstimate` does up to the network boundary:
either it alerts a validation message and returns without fetching, or it
posts a request body. -/
inductive EstimateOutcome where
  | validationError (message : String)
  | request (body : EstimateRequest)
deriving DecidableEq, Repr

/-- `calculatePriceEstimate()` (main.js 383-442) up to the fetch: gathers
the form values, parses the numeric fields, and blocks with
`alert('Please fill in all required fields.')` when
`!propertyType || !location || isNaN(area) || area <= 0`; otherwise the
gathered data is sent.  The rendering of the response (estimated price /
error alert) is not claimed and not modelled. -/
def calculatePriceEstimate (f : EstimateForm) : EstimateOutcome :=
  let bedrooms := jsParseInt f.bedrooms
  let bathrooms := jsParseInt f.bathrooms
  let area := jsParseFloat f.area
  let age := jsParseInt f.age
  match area with
  | none => EstimateOutcome.validationError "Please fill in all required fields."
  | some a =>
    if f.propertyType = "" ∨ f.location = "" ∨ a ≤ 0 then
      EstimateOutcome.validationError "Please fill in all required fields."
    else
      EstimateOutcome.request
        { property_type := f.propertyType
          location := f.location
          bedrooms := bedrooms
          bathrooms := bathrooms
          area := some a
          age := age
          condition := f.condition
          garage := f.garage
          pool := f.pool
          garden := f.garden
          security := f.security
          aircon := f.aircon
          furnished := f.furnished }

/-! ### Specification vocabulary and supporting lemmas -/

/-- The markers a render pass creates for a property list, ids starting
at `n`. -/
def markersFor : List Property → Nat → List PropMarker
  | [], _ => []
  | p :: rest, n => mkMarker p n :: markersFor rest (n + 1)

/-- The map layers a render pass adds for a property list, ids starting
at `n`. -/
def markerLayersFor : List Property → Nat → List Layer
  | [], _ => []
  | _ :: rest, n =>
    { id := n, kind := LayerKind.propertyMarker } :: markerLayersFor rest (n + 1)

/-- The route-display invariant: every routeLine overlay on the map is
the one referenced by `currentRouteLayer`. -/
def RouteInv (s : AppState) : Prop :=
  ∀ l ∈ s.mapLayers, l.kind = LayerKind.routeLine →
    Option.map RouteLayer.id s.currentRouteLayer = some l.id

/-- Number of route polylines currently displayed on the map. -/
def routeLayerCount (s : AppState) : Nat :=
  (s.mapLayers.filter (fun l => l.kind == LayerKind.routeLine)).length

/-- Soundness of marker bookkeeping in a state: every `propertyMarkers`
entry's layer id identifies a propertyMarker-kind layer on the map. -/
def MarkerIdsSound (t : AppState) : Prop :=
  ∀ m ∈ t.propertyMarkers, ∀ l ∈ t.mapLayers,
    l.id = m.layerId → l.kind = LayerKind.propertyMarker

/-- Number of geocode-result markers currently on the map. -/
def geocodeMarkerCount (s : AppState) : Nat :=
  (s.mapLayers.filter (fun l => l.kind == LayerKind.geocodeMarker)).length

/-! ### Demo data for concrete instantiations -/

/-- A below-threshold listing. -/
def demoPropA : Property :=
  { lat := 1, lng := 2, price := 150000, bedrooms := 3, bathrooms := 2,
    area := 120, address := "12 A St", image := "a.jpg", type := "residential" }

/-- An above-threshold listing with the price 250000 named by the spec. -/
def demoPropB : Property :=
  { lat := 3, lng := 4, price := 250000, bedrooms := 4, bathrooms := 3,
    area := 200, address := "34 B Ave", image := "b.jpg", type := "commercial" }

/-- A concrete successful route response with two waypoints and a
fractional duration. -/
def demoRouteData : RouteData :=
  { start := { lat := 0, lng := 0 }
    waypoints := [{ lat := 1, lng := 1 }, { lat := 2, lng := 2 }]
    endPt := { lat := 3, lng := 3 }
    distance := 12
    duration := 17 / 2 }

/-- A page state with one route polyline already displayed. -/
def demoRouteStale : AppState :=
  { initialState with
    nextId := 1
    mapLayers := [{ id := 0, kind := LayerKind.routeLine }]
    currentRouteLayer :=
      some { id := 0, points := [{ lat := 0, lng := 0 }, { lat := 3, lng := 3 }] } }

/-- A page state holding one tracked property marker (id 0) and one
untracked geocode marker (id 1). -/
def demoMixedState : AppState :=
  { initialState with
    nextId := 2
    mapLayers := [{ id := 0, kind := LayerKind.propertyMarker },
      { id := 1, kind := LayerKind.geocodeMarker }]
    propertyMarkers := [mkMarker demoPropA 0]
    resultCount := 1 }

/-- An estimation form whose area field is `0`. -/
def demoZeroAreaForm : EstimateForm :=
  { propertyType := "residential", location := "Windhoek", bedrooms := "3",
    bathrooms := "2", area := "0", age := "5", condition := "good",
    garage := false, pool := false, garden := false, security := false,
    aircon := false, furnished := false }

/-- An estimation form whose bedrooms and age fields are empty and whose
bathrooms field is non-numeric, while the validated fields pass. -/
def demoNaNForm : EstimateForm :=
  { propertyType := "residential", location := "Windhoek", bedrooms := "",
    bathrooms := "n/a", area := "120", age := "", condition := "good",
    garage := true, pool := false, garden := true, security := false,
    aircon := false, furnished := false }

/-! ### Supporting lemmas -/

theorem markersFor_length (props : List Property) (n : Nat) :
    (markersFor props n).length = props.length := by
  induction props generalizing n with
  | nil => rfl
  | cons p ps ih => simp [markersFor, ih]

theorem markersFor_getElem? (props : List Property) (n i : Nat) (p : Property)
    (h : props[i]? = some p) :
    (markersFor props n)[i]? = some (mkMarker p (n + i)) := by
  induction props generalizing n i with
  | nil => simp at h
  | cons q ps ih =>
    cases i with
    | zero =>
      simp only [List.getElem?_cons_zero, Option.some.injEq] at h
      subst h
      simp [markersFor]
    | succ j =>
      simp only [List.getElem?_cons_succ] at h
      have hj := ih (n + 1) j h
      have harith : n + 1 + j = n + (j + 1) := by omega
      simpa [markersFor, harith] using hj

theorem mem_markersFor (props : List Property) (n : Nat) (m : PropMarker)
    (h : m ∈ markersFor props n) :
    n ≤ m.layerId ∧ m.layerId < n + props.length := by
  induction props generalizing n with
  | nil => simp [markersFor] at h
  | cons q ps ih =>
    simp only [markersFor, List.mem_cons] at h
    rcases h with h | h
    · subst h
      simp only [mkMarker, List.length_cons]
      omega
    · have := ih (n + 1) h
      simp only [List.length_cons]
      omega

theorem mem_markerLayersFor (props : List Property) (n : Nat) (l : Layer)
    (h : l ∈ markerLayersFor props n) :
    n ≤ l.id ∧ l.id < n + props.length ∧ l.kind = LayerKind.propertyMarker := by
  induction props generalizing n with
  | nil => simp [markerLayersFor] at h
  | cons q ps ih =>
    simp only [markerLayersFor, List.mem_cons] at h
    rcases h with h | h
    · subst h
      refine ⟨Nat.le_refl n, ?_, rfl⟩
      simp only [List.length_cons]
      omega
    · obtain ⟨h1, h2, h3⟩ := ih (n + 1) h
      refine ⟨by omega, ?_, h3⟩
      simp only [List.length_cons]
      omega

/-- Closed form of the marker-removal loop of `clearPropertyMarkers`. -/
theorem clear_foldl (ms : List PropMarker) (s : AppState) :
    ms.foldl (fun st m => removeLayer m.layerId st) s =
      { s with
        mapLayers := s.mapLayers.filter (fun l => ms.all (fun m => l.id != m.layerId))
        removeLayerCalls := s.removeLayerCalls ++ ms.map PropMarker.layerId } := by
  induction ms generalizing s with
  | nil => simp
  | cons m ms ih =>
    rw [List.foldl_cons, ih]
    simp only [removeLayer, List.filter_filter, List.all_cons, List.map_cons,
      List.append_assoc, List.singleton_append]
    simp [Bool.and_comm]

/-- Closed form of `clearPropertyMarkers`. -/
theorem clearPropertyMarkers_spec (s : AppState) :
    clearPropertyMarkers s =
      { s with
        mapLayers := s.mapLayers.filter
          (fun l => s.propertyMarkers.all (fun m => l.id != m.layerId))
        propertyMarkers := []
        removeLayerCalls := s.removeLayerCalls ++ s.propertyMarkers.map PropMarker.layerId } := by
  simp only [clearPropertyMarkers]
  rw [clear_foldl]

/-- Closed form of the per-property render loop of `displayProperties`. -/
theorem render_foldl (props : List Property) (s : AppState) :
    props.foldl (fun st p => addPropertyToList p (addPropertyToMap p st)) s =
      { s with
        nextId := s.nextId + props.length
        mapLayers := s.mapLayers ++ markerLayersFor props s.nextId
        propertyMarkers := s.propertyMarkers ++ markersFor props s.nextId
        propertyList := s.propertyList ++ props.map propCard } := by
  induction props generalizing s with
  | nil => simp [markersFor, markerLayersFor]
  | cons p ps ih =>
    rw [List.foldl_cons]
    show (List.foldl (fun st p => addPropertyToList p (addPropertyToMap p st))
      (addPropertyToList p (addPropertyToMap p s)) ps) = _
    rw [ih]
    simp only [addPropertyToList, addPropertyToMap, markersFor, markerLayersFor,
      List.map_cons, List.length_cons, List.append_assoc, List.singleton_append,
      List.cons_append, List.nil_append]
    have harith : s.nextId + 1 + ps.length = s.nextId + (ps.length + 1) := by omega
    rw [harith]

/-- Closed form of `displayProperties`. -/
theorem displayProperties_spec (props : List Property) (s : AppState) :
    displayProperties props s =
      { nextId := s.nextId + props.length
        mapLayers := s.mapLayers.filter
            (fun l => s.propertyMarkers.all (fun m => l.id != m.layerId)) ++
          markerLayersFor props s.nextId
        propertyMarkers := markersFor props s.nextId
        currentRouteLayer := s.currentRouteLayer
        userLocationMarker := s.userLocationMarker
        propertyList := props.map propCard
        resultCount := props.length
        openPopup := s.openPopup
        mapView := s.mapView
        alerts := s.alerts
        consoleErrors := s.consoleErrors
        removeLayerCalls := s.removeLayerCalls ++ s.propertyMarkers.map PropMarker.layerId } := by
  simp only [displayProperties, clearPropertyMarkers]
  rw [clear_foldl, render_foldl]
  simp

/-! ### C1: marker collection replacement invariant -/

/-- C1: for every two result sets R1 then R2 rendered in sequence by
`displayProperties`, after rendering R2 the marker collection has exactly
one marker per property of R2 (same length, and the i-th entry is the
marker built from the i-th property), contains no marker belonging to
R1 — R1's markers are also off the map — and the result-count display
equals the size of R2.  Nothing here is conditional on R2 being
nonempty, so the count and no-prior-marker parts hold for the empty
result set as well. -/
theorem C1_displayProperties_replaces_markers
    (R1 R2 : List Property) (s : AppState) :
    ((displayProperties R2 (displayProperties R1 s)).propertyMarkers.length = R2.length) ∧
    ((displayProperties R2 (displayProperties R1 s)).resultCount = R2.length) ∧
    (∀ (i : Nat) (p : Property), R2[i]? = some p →
      (displayProperties R2 (displayProperties R1 s)).propertyMarkers[i]? =
        some (mkMarker p ((displayProperties R1 s).nextId + i))) ∧
    (∀ m ∈ (displayProperties R1 s).propertyMarkers,
      m ∉ (displayProperties R2 (displayProperties R1 s)).propertyMarkers ∧
      ({ id := m.layerId, kind := LayerKind.propertyMarker } : Layer) ∉
        (displayProperties R2 (displayProperties R1 s)).mapLayers) := by
  have h1 := displayProperties_spec R1 s
  have h2 := displayProperties_spec R2 (displayProperties R1 s)
  refine ⟨?_, ?_, ?_, ?_⟩
  · rw [h2]
    exact markersFor_length R2 _
  · rw [h2]
  · intro i p hi
    rw [h2]
    exact markersFor_getElem? R2 _ i p hi
  · intro m hm
    have hm1 : m ∈ markersFor R1 s.nextId := by
      rw [h1] at hm
      exact hm
    obtain ⟨hlo, hhi⟩ := mem_markersFor R1 s.nextId m hm1
    have hn1 : (displayProperties R1 s).nextId = s.nextId + R1.length := by
      rw [h1]
    constructor
    · intro hmem
      rw [h2] at hmem
      obtain ⟨hlo2, _⟩ := mem_markersFor R2 _ m hmem
      rw [hn1] at hlo2
      omega
    · intro hmem
      rw [h2] at hmem
      simp only [List.mem_append] at hmem
      rcases hmem with hmem | hmem
      · rw [List.mem_filter] at hmem
        obtain ⟨_, hpred⟩ := hmem
        simp only [List.all_eq_true] at hpred
        have hcontr := hpred m (by rw [h1]; exact hm1)
        simp at hcontr
      · obtain ⟨hge, _, _⟩ := mem_markerLayersFor R2 _ _ hmem
        rw [hn1] at hge
        simp only at hge
        omega

/-- C1 witness: the theorem instantiated at a concrete singleton result
set rendered after another from the blank page state, and again at the
empty result set, whose count and no-prior-marker parts hold
non-vacuously. -/
theorem C1_witness :
    (((displayProperties [demoPropB] (displayProperties [demoPropA] initialState)).propertyMarkers.length = [demoPropB].length) ∧
      ((displayProperties [demoPropB] (displayProperties [demoPropA] initialState)).resultCount = [demoPropB].length) ∧
      (∀ (i : Nat) (p : Property), [demoPropB][i]? = some p →
        (displayProperties [demoPropB] (displayProperties [demoPropA] initialState)).propertyMarkers[i]? =
          some (mkMarker p ((displayProperties [demoPropA] initialState).nextId + i))) ∧
      (∀ m ∈ (displayProperties [demoPropA] initialState).propertyMarkers,
        m ∉ (displayProperties [demoPropB] (displayProperties [demoPropA] initialState)).propertyMarkers ∧
        ({ id := m.layerId, kind := LayerKind.propertyMarker } : Layer) ∉
          (displayProperties [demoPropB] (displayProperties [demoPropA] initialState)).mapLayers)) ∧
    (((displayProperties [] (displayProperties [demoPropA] initialState)).propertyMarkers.length = ([] : List Property).length) ∧
      ((displayProperties [] (displayProperties [demoPropA] initialState)).resultCount = ([] : List Property).length) ∧
      (∀ (i : Nat) (p : Property), ([] : List Property)[i]? = some p →
        (displayProperties [] (displayProperties [demoPropA] initialState)).propertyMarkers[i]? =
          some (mkMarker p ((displayProperties [demoPropA] initialState).nextId + i))) ∧
      (∀ m ∈ (displayProperties [demoPropA] initialState).propertyMarkers,
        m ∉ (displayProperties [] (displayProperties [demoPropA] initialState)).propertyMarkers ∧
        ({ id := m.layerId, kind := LayerKind.propertyMarker } : Layer) ∉
          (displayProperties [] (displayProperties [demoPropA] initialState)).mapLayers)) :=
  ⟨C1_displayProperties_replaces_markers [demoPropA] [demoPropB] initialState,
    C1_displayProperties_replaces_markers [demoPropA] [] initialState⟩

/-! ### C2: marker size tier and label -/

/-- C2: the marker size tier chosen by `addPropertyToMap` is a pure
function of the price — the large tier (50) is used iff the price exceeds
200000, otherwise the small tier (40) — and the label is the
`N$`-prefixed thousands-separated price; rendering the single listing
`demoPropB` (price 250000) produces exactly one marker, with the large
tier and label `N$250,000`. -/
theorem C2_marker_size_tier (p : Property) (s : AppState) :
    ((addPropertyToMap p s).propertyMarkers = s.propertyMarkers ++ [mkMarker p s.nextId]) ∧
    ((mkMarker p s.nextId).iconSize = 50 ↔ 200000 < p.price) ∧
    ((mkMarker p s.nextId).iconSize = 40 ↔ ¬ 200000 < p.price) ∧
    ((mkMarker p s.nextId).iconHtml = "N$" ++ toLocaleString p.price) ∧
    ((displayProperties [demoPropB] s).propertyMarkers = [mkMarker demoPropB s.nextId]) ∧
    ((mkMarker demoPropB s.nextId).iconSize = 50) ∧
    ((mkMarker demoPropB s.nextId).iconHtml = "N$250,000") := by
  refine ⟨by simp [addPropertyToMap], ?_, ?_, rfl, ?_, rfl, rfl⟩
  · by_cases h : 200000 < p.price <;> simp [mkMarker, h]
  · by_cases h : 200000 < p.price <;> simp [mkMarker, h]
  · rw [displayProperties_spec]
    simp [markersFor]

/-! ### Route helpers -/

@[simp] theorem showRouteBeforeFetch_nextId (s : AppState) :
    (showRouteBeforeFetch s).nextId = s.nextId := by
  cases h : s.currentRouteLayer <;> simp [showRouteBeforeFetch, h, removeLayer]

@[simp] theorem showRouteBeforeFetch_currentRouteLayer (s : AppState) :
    (showRouteBeforeFetch s).currentRouteLayer = s.currentRouteLayer := by
  cases h : s.currentRouteLayer <;> simp [showRouteBeforeFetch, h, removeLayer]

@[simp] theorem showRouteBeforeFetch_propertyMarkers (s : AppState) :
    (showRouteBeforeFetch s).propertyMarkers = s.propertyMarkers := by
  cases h : s.currentRouteLayer <;> simp [showRouteBeforeFetch, h, removeLayer]

@[simp] theorem showRouteBeforeFetch_openPopup (s : AppState) :
    (showRouteBeforeFetch s).openPopup = s.openPopup := by
  cases h : s.currentRouteLayer <;> simp [showRouteBeforeFetch, h, removeLayer]

@[simp] theorem showRouteBeforeFetch_mapView (s : AppState) :
    (showRouteBeforeFetch s).mapView = s.mapView := by
  cases h : s.currentRouteLayer <;> simp [showRouteBeforeFetch, h, removeLayer]

@[simp] theorem showRouteBeforeFetch_alerts (s : AppState) :
    (showRouteBeforeFetch s).alerts = s.alerts := by
  cases h : s.currentRouteLayer <;> simp [showRouteBeforeFetch, h, removeLayer]

@[simp] theorem showRouteBeforeFetch_consoleErrors (s : AppState) :
    (showRouteBeforeFetch s).consoleErrors = s.consoleErrors := by
  cases h : s.currentRouteLayer <;> simp [showRouteBeforeFetch, h, removeLayer]

@[simp] theorem showRouteBeforeFetch_resultCount (s : AppState) :
    (showRouteBeforeFetch s).resultCount = s.resultCount := by
  cases h : s.currentRouteLayer <;> simp [showRouteBeforeFetch, h, removeLayer]

@[simp] theorem showRouteBeforeFetch_propertyList (s : AppState) :
    (showRouteBeforeFetch s).propertyList = s.propertyList := by
  cases h : s.currentRouteLayer <;> simp [showRouteBeforeFetch, h, removeLayer]

@[simp] theorem showRouteBeforeFetch_userLocationMarker (s : AppState) :
    (showRouteBeforeFetch s).userLocationMarker = s.userLocationMarker := by
  cases h : s.currentRouteLayer <;> simp [showRouteBeforeFetch, h, removeLayer]

/-- Under the route invariant, the pre-fetch removal step of `showRoute`
leaves no route layer on the map. -/
theorem showRouteBeforeFetch_no_route (s : AppState) (hinv : RouteInv s) :
    ∀ l ∈ (showRouteBeforeFetch s).mapLayers, l.kind ≠ LayerKind.routeLine := by
  intro l hl hk
  cases hcur : s.currentRouteLayer with
  | none =>
    rw [showRouteBeforeFetch, hcur] at hl
    have := hinv l hl hk
    rw [hcur] at this
    simp at this
  | some rl =>
    rw [showRouteBeforeFetch, hcur] at hl
    simp only [removeLayer] at hl
    rw [List.mem_filter] at hl
    obtain ⟨hmem, hne⟩ := hl
    have hid := hinv l hmem hk
    rw [hcur] at hid
    simp only [Option.map_some', Option.some.injEq] at hid
    simp only [bne_iff_ne, ne_eq] at hne
    exact hne hid.symm

theorem showRouteBeforeFetch_filter_route (s : AppState) (hinv : RouteInv s) :
    (showRouteBeforeFetch s).mapLayers.filter (fun l => l.kind == LayerKind.routeLine) = [] := by
  rw [List.filter_eq_nil_iff]
  intro l hl
  simp [showRouteBeforeFetch_no_route s hinv l hl]

/-! ### C3: at most one route layer -/

/-- C3: every invocation of `showRoute` removes any previously displayed
route layer from the map before the route request is issued (hence before
any new line is drawn), so that — whatever the response — at most one
route layer is displayed afterwards, the route invariant is preserved,
and the previously displayed route layer is no longer on the map. -/
theorem C3_route_layer_replaced (s : AppState) (resp : RouteResponse)
    (hinv : RouteInv s)
    (hid : ∀ rl, s.currentRouteLayer = some rl → rl.id < s.nextId) :
    (∀ l ∈ (showRouteBeforeFetch s).mapLayers, l.kind ≠ LayerKind.routeLine) ∧
    routeLayerCount (showRoute resp s) ≤ 1 ∧
    RouteInv (showRoute resp s) ∧
    (∀ rl, s.currentRouteLayer = some rl →
      ({ id := rl.id, kind := LayerKind.routeLine } : Layer) ∉ (showRoute resp s).mapLayers) := by
  have hpre := showRouteBeforeFetch_no_route s hinv
  have hfil := showRouteBeforeFetch_filter_route s hinv
  refine ⟨hpre, ?_, ?_, ?_⟩
  · cases resp with
    | fetchError => simp [showRoute, showRouteOnResponse, routeLayerCount, hfil]
    | failure => simp [showRoute, showRouteOnResponse, routeLayerCount, hfil]
    | success rd =>
      simp [showRoute, showRouteOnResponse, routeLayerCount, List.filter_append, hfil]
  · cases resp with
    | fetchError =>
      intro l hl hk
      simp only [showRoute, showRouteOnResponse] at hl
      exact absurd hk (hpre l hl)
    | failure =>
      intro l hl hk
      simp only [showRoute, showRouteOnResponse] at hl
      exact absurd hk (hpre l hl)
    | success rd =>
      intro l hl hk
      simp only [showRoute, showRouteOnResponse, List.mem_append, List.mem_singleton] at hl
      rcases hl with hl | hl
      · exact absurd hk (hpre l hl)
      · subst hl
        simp [showRoute, showRouteOnResponse]
  · intro rl hrl
    cases resp with
    | fetchError =>
      intro hmem
      simp only [showRoute, showRouteOnResponse, showRouteBeforeFetch, hrl] at hmem
      simp only [removeLayer, List.mem_filter] at hmem
      simp at hmem
    | failure =>
      intro hmem
      simp only [showRoute, showRouteOnResponse, showRouteBeforeFetch, hrl] at hmem
      simp only [removeLayer, List.mem_filter] at hmem
      simp at hmem
    | success rd =>
      intro hmem
      have hlt : rl.id < s.nextId := hid rl hrl
      simp only [showRoute, showRouteOnResponse, List.mem_append, List.mem_singleton] at hmem
      rcases hmem with hmem | hmem
      · rw [showRouteBeforeFetch, hrl] at hmem
        simp only [removeLayer, List.mem_filter] at hmem
        simp at hmem
      · rw [Layer.mk.injEq] at hmem
        obtain ⟨h1, _⟩ := hmem
        rw [showRouteBeforeFetch_nextId] at h1
        omega

/-- C3 witness: the theorem instantiated at a state with one displayed
route and a successful new route response. -/
theorem C3_witness :
    (∀ l ∈ (showRouteBeforeFetch demoRouteStale).mapLayers, l.kind ≠ LayerKind.routeLine) ∧
    routeLayerCount (showRoute (RouteResponse.success demoRouteData) demoRouteStale) ≤ 1 ∧
    RouteInv (showRoute (RouteResponse.success demoRouteData) demoRouteStale) ∧
    (∀ rl, demoRouteStale.currentRouteLayer = some rl →
      ({ id := rl.id, kind := LayerKind.routeLine } : Layer) ∉
        (showRoute (RouteResponse.success demoRouteData) demoRouteStale).mapLayers) :=
  C3_route_layer_replaced demoRouteStale (RouteResponse.success demoRouteData)
    (by unfold RouteInv; decide)
    (by intro rl h; injection h with h2; subst h2; decide)

/-! ### C5: route polyline points, popup anchor, rounded duration -/

/-- C5: for every successful route response, the drawn line's point
sequence is exactly start, then the waypoints in server order, then end
(so n = waypoints + 2 points; 4 points for 2 waypoints); the summary
popup is anchored at index floor(n/2) of that sequence (index 2 for 4
points) and shows the duration rounded to whole minutes. -/
theorem C5_route_points_and_popup (rd : RouteData) (s : AppState) :
    ((showRoute (RouteResponse.success rd) s).currentRouteLayer =
      some { id := s.nextId, points := rd.start :: (rd.waypoints ++ [rd.endPt]) }) ∧
    ((rd.start :: (rd.waypoints ++ [rd.endPt])).length = rd.waypoints.length + 2) ∧
    ((showRoute (RouteResponse.success rd) s).openPopup =
      some (Popup.routeInfo
        ((rd.start :: (rd.waypoints ++ [rd.endPt])).getD
          ((rd.start :: (rd.waypoints ++ [rd.endPt])).length / 2) rd.start)
        rd.distance (jsRound rd.duration))) ∧
    ((rd.start :: (rd.waypoints ++ [rd.endPt])).length / 2 <
      (rd.start :: (rd.waypoints ++ [rd.endPt])).length) ∧
    (rd.waypoints.length = 2 →
      ((rd.start :: (rd.waypoints ++ [rd.endPt])).length = 4 ∧
        (showRoute (RouteResponse.success rd) s).openPopup =
          some (Popup.routeInfo ((rd.start :: (rd.waypoints ++ [rd.endPt])).getD 2 rd.start)
            rd.distance (jsRound rd.duration)))) := by
  have h3 : (showRoute (RouteResponse.success rd) s).openPopup =
      some (Popup.routeInfo
        ((rd.start :: (rd.waypoints ++ [rd.endPt])).getD
          ((rd.start :: (rd.waypoints ++ [rd.endPt])).length / 2) rd.start)
        rd.distance (jsRound rd.duration)) := by
    simp [showRoute, showRouteOnResponse]
  refine ⟨?_, by simp, h3, ?_, ?_⟩
  · simp [showRoute, showRouteOnResponse]
  · have : (rd.start :: (rd.waypoints ++ [rd.endPt])).length = rd.waypoints.length + 2 := by
      simp
    omega
  · intro h2
    have hl4 : (rd.start :: (rd.waypoints ++ [rd.endPt])).length = 4 := by simp [h2]
    exact ⟨hl4, by simpa [hl4] using h3⟩

/-- C5 witness: the theorem instantiated at the concrete two-waypoint
response `demoRouteData` from the blank page state. -/
theorem C5_witness :
    ((showRoute (RouteResponse.success demoRouteData) initialState).currentRouteLayer =
      some { id := initialState.nextId,
             points := demoRouteData.start :: (demoRouteData.waypoints ++ [demoRouteData.endPt]) }) ∧
    ((demoRouteData.start :: (demoRouteData.waypoints ++ [demoRouteData.endPt])).length =
      demoRouteData.waypoints.length + 2) ∧
    ((showRoute (RouteResponse.success demoRouteData) initialState).openPopup =
      some (Popup.routeInfo
        ((demoRouteData.start :: (demoRouteData.waypoints ++ [demoRouteData.endPt])).getD
          ((demoRouteData.start :: (demoRouteData.waypoints ++ [demoRouteData.endPt])).length / 2)
          demoRouteData.start)
        demoRouteData.distance (jsRound demoRouteData.duration))) ∧
    ((demoRouteData.start :: (demoRouteData.waypoints ++ [demoRouteData.endPt])).length / 2 <
      (demoRouteData.start :: (demoRouteData.waypoints ++ [demoRouteData.endPt])).length) ∧
    (demoRouteData.waypoints.length = 2 →
      ((demoRouteData.start :: (demoRouteData.waypoints ++ [demoRouteData.endPt])).length = 4 ∧
        (showRoute (RouteResponse.success demoRouteData) initialState).openPopup =
          some (Popup.routeInfo
            ((demoRouteData.start :: (demoRouteData.waypoints ++ [demoRouteData.endPt])).getD 2
              demoRouteData.start)
            demoRouteData.distance (jsRound demoRouteData.duration)))) :=
  C5_route_points_and_popup demoRouteData initialState

/-! ### C7: failing route requests (corrected) -/

/-- C7 counterexample: with a route already displayed, a failing route
request does change the map display — the previously displayed route
layer is removed before the request is even issued, so the map after the
failure differs from the map before the call. -/
theorem C7_counterexample :
    ¬ ((showRoute RouteResponse.fetchError demoRouteStale).mapLayers =
      demoRouteStale.mapLayers) := by
  decide

/-- C7 amended: a failing route request logs (on a rejected fetch) and
causes no visual change beyond the removal of the previously displayed
route layer, which happens before the request is issued; in particular
when no route layer was displayed the map display is entirely
unchanged. -/
theorem C7_failed_route_visuals (s : AppState) (resp : RouteResponse)
    (hf : resp.isFail = true) :
    ((showRoute resp s).alerts = s.alerts) ∧
    ((showRoute resp s).openPopup = s.openPopup) ∧
    ((showRoute resp s).mapView = s.mapView) ∧
    ((showRoute resp s).resultCount = s.resultCount) ∧
    ((showRoute resp s).propertyList = s.propertyList) ∧
    ((showRoute resp s).propertyMarkers = s.propertyMarkers) ∧
    ((showRoute resp s).mapLayers = (showRouteBeforeFetch s).mapLayers) ∧
    (s.currentRouteLayer = none → (showRoute resp s).mapLayers = s.mapLayers) ∧
    (resp = RouteResponse.fetchError →
      (showRoute resp s).consoleErrors = s.consoleErrors + 1) := by
  cases resp with
  | fetchError =>
    refine ⟨by simp [showRoute, showRouteOnResponse], by simp [showRoute, showRouteOnResponse],
      by simp [showRoute, showRouteOnResponse], by simp [showRoute, showRouteOnResponse],
      by simp [showRoute, showRouteOnResponse], by simp [showRoute, showRouteOnResponse],
      by simp [showRoute, showRouteOnResponse], ?_, by simp [showRoute, showRouteOnResponse]⟩
    intro hnone
    simp [showRoute, showRouteOnResponse, showRouteBeforeFetch, hnone]
  | failure =>
    refine ⟨by simp [showRoute, showRouteOnResponse], by simp [showRoute, showRouteOnResponse],
      by simp [showRoute, showRouteOnResponse], by simp [showRoute, showRouteOnResponse],
      by simp [showRoute, showRouteOnResponse], by simp [showRoute, showRouteOnResponse],
      by simp [showRoute, showRouteOnResponse], ?_, by simp⟩
    intro hnone
    simp [showRoute, showRouteOnResponse, showRouteBeforeFetch, hnone]
  | success rd => simp [RouteResponse.isFail] at hf

/-- C7 amended-claim witness: a rejected route fetch from the blank page
state (no route displayed). -/
theorem C7_witness :
    ((showRoute RouteResponse.fetchError initialState).alerts = initialState.alerts) ∧
    ((showRoute RouteResponse.fetchError initialState).openPopup = initialState.openPopup) ∧
    ((showRoute RouteResponse.fetchError initialState).mapView = initialState.mapView) ∧
    ((showRoute RouteResponse.fetchError initialState).resultCount = initialState.resultCount) ∧
    ((showRoute RouteResponse.fetchError initialState).propertyList = initialState.propertyList) ∧
    ((showRoute RouteResponse.fetchError initialState).propertyMarkers = initialState.propertyMarkers) ∧
    ((showRoute RouteResponse.fetchError initialState).mapLayers =
      (showRouteBeforeFetch initialState).mapLayers) ∧
    (initialState.currentRouteLayer = none →
      (showRoute RouteResponse.fetchError initialState).mapLayers = initialState.mapLayers) ∧
    (RouteResponse.fetchError = RouteResponse.fetchError →
      (showRoute RouteResponse.fetchError initialState).consoleErrors =
        initialState.consoleErrors + 1) :=
  C7_failed_route_visuals initialState RouteResponse.fetchError rfl

/-! ### C9: stale currentRouteLayer and double removal -/

/-- The response callbacks never invoke `map.removeLayer`; only the
pre-fetch step does. -/
theorem showRoute_removeLayerCalls (resp : RouteResponse) (t : AppState) :
    (showRoute resp t).removeLayerCalls = (showRouteBeforeFetch t).removeLayerCalls := by
  cases resp <;> simp [showRoute, showRouteOnResponse]

/-- C9: `showRoute` does not reset `currentRouteLayer` after removing the
previous layer: after a failing request (rejected fetch or
`success:false`) the variable still references the already-removed layer
(whose id is no longer on the map), and the next `showRoute` call invokes
`map.removeLayer` on that same layer id a second time. -/
theorem C9_stale_route_layer (s : AppState) (rl : RouteLayer)
    (hcur : s.currentRouteLayer = some rl) (r1 r2 : RouteResponse)
    (hf : r1.isFail = true) :
    ((showRoute r1 s).currentRouteLayer = some rl) ∧
    (rl.id ∉ (showRoute r1 s).mapLayers.map Layer.id) ∧
    ((showRoute r1 s).removeLayerCalls = s.removeLayerCalls ++ [rl.id]) ∧
    ((showRoute r2 (showRoute r1 s)).removeLayerCalls =
      s.removeLayerCalls ++ [rl.id, rl.id]) := by
  have hpre : showRouteBeforeFetch s = removeLayer rl.id s := by
    simp [showRouteBeforeFetch, hcur]
  have hmap : ∀ t : AppState, rl.id ∉ (t.mapLayers.filter (fun l => l.id != rl.id)).map Layer.id := by
    intro t hmem
    rw [List.mem_map] at hmem
    obtain ⟨l, hl, hid⟩ := hmem
    rw [List.mem_filter] at hl
    obtain ⟨_, hne⟩ := hl
    rw [hid] at hne
    simp at hne
  have h1 : ((showRoute r1 s).currentRouteLayer = some rl) ∧
      (rl.id ∉ (showRoute r1 s).mapLayers.map Layer.id) ∧
      ((showRoute r1 s).removeLayerCalls = s.removeLayerCalls ++ [rl.id]) := by
    cases r1 with
    | fetchError =>
      refine ⟨?_, ?_, ?_⟩
      · simp [showRoute, showRouteOnResponse, hcur]
      · simp only [showRoute, showRouteOnResponse, hpre, removeLayer]
        exact hmap s
      · simp [showRoute, showRouteOnResponse, hpre, removeLayer]
    | failure =>
      refine ⟨?_, ?_, ?_⟩
      · simp [showRoute, showRouteOnResponse, hcur]
      · simp only [showRoute, showRouteOnResponse, hpre, removeLayer]
        exact hmap s
      · simp [showRoute, showRouteOnResponse, hpre, removeLayer]
    | success rd => simp [RouteResponse.isFail] at hf
  obtain ⟨hc1, hm1, hr1⟩ := h1
  refine ⟨hc1, hm1, hr1, ?_⟩
  have hpre1 : showRouteBeforeFetch (showRoute r1 s) = removeLayer rl.id (showRoute r1 s) := by
    simp [showRouteBeforeFetch, hc1]
  rw [showRoute_removeLayerCalls, hpre1]
  simp [removeLayer, hr1]

/-- C9 witness: the stale-route state, a rejected fetch, then a second
call with a successful response: the removed layer id 0 is removed
again. -/
theorem C9_witness :
    ((showRoute RouteResponse.fetchError demoRouteStale).currentRouteLayer =
      some { id := 0, points := [{ lat := 0, lng := 0 }, { lat := 3, lng := 3 }] }) ∧
    ((0 : Nat) ∉ (showRoute RouteResponse.fetchError demoRouteStale).mapLayers.map Layer.id) ∧
    ((showRoute RouteResponse.fetchError demoRouteStale).removeLayerCalls =
      demoRouteStale.removeLayerCalls ++ [0]) ∧
    ((showRoute (RouteResponse.success demoRouteData)
        (showRoute RouteResponse.fetchError demoRouteStale)).removeLayerCalls =
      demoRouteStale.removeLayerCalls ++ [0, 0]) :=
  C9_stale_route_layer demoRouteStale
    { id := 0, points := [{ lat := 0, lng := 0 }, { lat := 3, lng := 3 }] }
    rfl RouteResponse.fetchError (RouteResponse.success demoRouteData) rfl

/-! ### C6: geocode failure message -/

/-- C6: for every `success:false` geocode response, `searchLocation`
alerts the response's error message when it is present and non-empty, and
the generic fallback `Location not found` when the field is absent or
empty; in particular for the error `Not found` the displayed message is
exactly `Not found`. -/
theorem C6_geocode_failure_message (s : AppState) (q e : String)
    (hq : q ≠ "") (he : e ≠ "") :
    (searchLocation q (GeocodeResponse.failure (some e)) s =
      { s with alerts := s.alerts ++ [e] }) ∧
    (searchLocation q (GeocodeResponse.failure none) s =
      { s with alerts := s.alerts ++ ["Location not found"] }) ∧
    (searchLocation q (GeocodeResponse.failure (some "")) s =
      { s with alerts := s.alerts ++ ["Location not found"] }) ∧
    (searchLocation q (GeocodeResponse.failure (some "Not found")) s =
      { s with alerts := s.alerts ++ ["Not found"] }) := by
  refine ⟨?_, ?_, ?_, ?_⟩ <;> simp [searchLocation, jsOrString, hq, he]

/-- C6 witness: a failing geocode of a concrete query with the error
message `Not found`, from the blank page state. -/
theorem C6_witness :
    (searchLocation "Windhoek" (GeocodeResponse.failure (some "Not found")) initialState =
      { initialState with alerts := initialState.alerts ++ ["Not found"] }) ∧
    (searchLocation "Windhoek" (GeocodeResponse.failure none) initialState =
      { initialState with alerts := initialState.alerts ++ ["Location not found"] }) ∧
    (searchLocation "Windhoek" (GeocodeResponse.failure (some "")) initialState =
      { initialState with alerts := initialState.alerts ++ ["Location not found"] }) ∧
    (searchLocation "Windhoek" (GeocodeResponse.failure (some "Not found")) initialState =
      { initialState with alerts := initialState.alerts ++ ["Not found"] }) :=
  C6_geocode_failure_message initialState "Windhoek" "Not found" (by decide) (by decide)

/-! ### C8: geocode markers are never tracked nor cleared -/

/-- C8: a successful geocode adds one more marker to the map without
recording it in `propertyMarkers`, and — whenever property-marker ids
soundly identify propertyMarker-kind layers — neither
`clearPropertyMarkers` nor `displayProperties` ever removes a
geocode-result marker, so such markers accumulate. -/
theorem C8_geocode_markers_accumulate (s : AppState) (q : String)
    (lat lng : ℚ) (addr : String) (hq : q ≠ "")
    (t : AppState) (props : List Property) (l : Layer)
    (ht : MarkerIdsSound t) (hl : l ∈ t.mapLayers)
    (hk : l.kind = LayerKind.geocodeMarker) :
    ((searchLocation q (GeocodeResponse.success lat lng addr) s).mapLayers =
      s.mapLayers ++ [{ id := s.nextId, kind := LayerKind.geocodeMarker }]) ∧
    ((searchLocation q (GeocodeResponse.success lat lng addr) s).propertyMarkers =
      s.propertyMarkers) ∧
    (geocodeMarkerCount (searchLocation q (GeocodeResponse.success lat lng addr) s) =
      geocodeMarkerCount s + 1) ∧
    (l ∈ (clearPropertyMarkers t).mapLayers) ∧
    (l ∈ (displayProperties props t).mapLayers) := by
  have hpred : (t.propertyMarkers.all (fun m => l.id != m.layerId)) = true := by
    rw [List.all_eq_true]
    intro m hm
    simp only [bne_iff_ne, ne_eq]
    intro heq
    have hkind := ht m hm l hl heq
    rw [hk] at hkind
    exact absurd hkind (by simp)
  have hclear : l ∈ (clearPropertyMarkers t).mapLayers := by
    rw [clearPropertyMarkers_spec]
    exact List.mem_filter.mpr ⟨hl, hpred⟩
  refine ⟨?_, ?_, ?_, hclear, ?_⟩
  · simp [searchLocation, hq]
  · simp [searchLocation, hq]
  · simp [searchLocation, hq, geocodeMarkerCount, List.filter_append]
  · rw [displayProperties_spec]
    simp only [List.mem_append]
    exact Or.inl (List.mem_filter.mpr ⟨hl, hpred⟩)

/-- C8 witness: a successful geocode from a state holding one property
marker and one geocode marker; the geocode marker survives a
`displayProperties` render pass. -/
theorem C8_witness :
    ((searchLocation "Windhoek" (GeocodeResponse.success 5 6 "Windhoek, Namibia") demoMixedState).mapLayers =
      demoMixedState.mapLayers ++ [{ id := demoMixedState.nextId, kind := LayerKind.geocodeMarker }]) ∧
    ((searchLocation "Windhoek" (GeocodeResponse.success 5 6 "Windhoek, Namibia") demoMixedState).propertyMarkers =
      demoMixedState.propertyMarkers) ∧
    (geocodeMarkerCount (searchLocation "Windhoek" (GeocodeResponse.success 5 6 "Windhoek, Namibia") demoMixedState) =
      geocodeMarkerCount demoMixedState + 1) ∧
    (({ id := 1, kind := LayerKind.geocodeMarker } : Layer) ∈
      (clearPropertyMarkers demoMixedState).mapLayers) ∧
    (({ id := 1, kind := LayerKind.geocodeMarker } : Layer) ∈
      (displayProperties [demoPropB] demoMixedState).mapLayers) :=
  C8_geocode_markers_accumulate demoMixedState "Windhoek" 5 6 "Windhoek, Namibia" (by decide)
    demoMixedState [demoPropB] { id := 1, kind := LayerKind.geocodeMarker }
    (by unfold MarkerIdsSound; decide) (by decide) rfl

/-! ### C4: estimate validation blocks the request -/

/-- C4: `calculatePriceEstimate` never issues a network call when the
area field does not parse to a strictly positive number or the property
type or location string is empty: it surfaces the validation alert and
returns without contacting the backend. -/
theorem C4_estimate_validation (f : EstimateForm)
    (h : f.propertyType = "" ∨ f.location = "" ∨ jsParseFloat f.area = none ∨
      (∃ a, jsParseFloat f.area = some a ∧ a ≤ 0)) :
    calculatePriceEstimate f =
      EstimateOutcome.validationError "Please fill in all required fields." := by
  cases harea : jsParseFloat f.area with
  | none => simp only [calculatePriceEstimate, harea]
  | some a =>
    rcases h with h | h | h | ⟨b, hb, hble⟩
    · simp [calculatePriceEstimate, harea, h]
    · simp [calculatePriceEstimate, harea, h]
    · rw [harea] at h
      exact absurd h (by simp)
    · rw [harea] at hb
      injection hb with hb
      subst hb
      simp [calculatePriceEstimate, harea, hble]

/-- C4 witness: a form whose area field is `0` (parses to the
non-positive number 0) is blocked. -/
theorem C4_witness :
    calculatePriceEstimate demoZeroAreaForm =
      EstimateOutcome.validationError "Please fill in all required fields." :=
  C4_estimate_validation demoZeroAreaForm
    (Or.inr (Or.inr (Or.inr ⟨0, by decide, by decide⟩)))

/-! ### C10: bedrooms, bathrooms and age are never validated -/

/-- C10: `calculatePriceEstimate` validates only property type, location
and area; when the bedrooms, bathrooms and age fields fail to parse
(empty or non-numeric, i.e. `parseInt` yields NaN) while the validated
fields pass, the request is still sent and carries the NaN values in its
body.  The empty string indeed parses to NaN. -/
theorem C10_unvalidated_nan_fields (f : EstimateForm)
    (htype : f.propertyType ≠ "") (hloc : f.location ≠ "")
    (a : ℚ) (harea : jsParseFloat f.area = some a) (hpos : 0 < a)
    (hbed : jsParseInt f.bedrooms = none)
    (hbath : jsParseInt f.bathrooms = none)
    (hage : jsParseInt f.age = none) :
    (calculatePriceEstimate f = EstimateOutcome.request
      { property_type := f.propertyType
        location := f.location
        bedrooms := none
        bathrooms := none
        area := some a
        age := none
        condition := f.condition
        garage := f.garage
        pool := f.pool
        garden := f.garden
        security := f.security
        aircon := f.aircon
        furnished := f.furnished }) ∧
    (jsParseInt "" = none) := by
  refine ⟨?_, rfl⟩
  simp only [calculatePriceEstimate, harea, hbed, hbath, hage]
  rw [if_neg]
  push_neg
  exact ⟨htype, hloc, hpos⟩

/-- C10 witness: empty bedrooms and age fields and a non-numeric
bathrooms field pass through as NaN in the posted body. -/
theorem C10_witness :
    (calculatePriceEstimate demoNaNForm = EstimateOutcome.request
      { property_type := demoNaNForm.propertyType
        location := demoNaNForm.location
        bedrooms := none
        bathrooms := none
        area := some 120
        age := none
        condition := demoNaNForm.condition
        garage := demoNaNForm.garage
        pool := demoNaNForm.pool
        garden := demoNaNForm.garden
        security := demoNaNForm.security
        aircon := demoNaNForm.aircon
        furnished := demoNaNForm.furnished }) ∧
    (jsParseInt "" = none) :=
  C10_unvalidated_nan_fields demoNaNForm (by decide) (by decide) 120
    (by decide) (by decide) (by decide) (by decide) (by decide)

end GeoEstate
